import Mathlib

/-!
Verification of the plc4x plc4go excerpt: bit-level read/write buffers, the
generated message codecs (`AdsNotificationSample`, `COTPParameter`,
`ApduDataExt`, `ApduControlContainer`), the S7 `MessageCodec.Receive` framer,
the S7 `Driver.GetConnection` pipeline, and the `PlcDriverManger` registry.

Machine integers are modelled as `Nat` (respectively `Int` for `int8`) with
explicit `% 2^w` at every point where the Go code performs a narrowing
conversion or a fixed-width arithmetic operation.  Byte streams are modelled
at bit granularity as `List Bool` (most significant bit first), matching the
bit-level cursors of the `utils.ReadBuffer` / `utils.WriteBuffer` types.
-/

namespace Plc4x

/-! ## Bit buffers

Modelled from the spec: the `utils.ReadBuffer` / `utils.WriteBuffer`
implementations are not part of the excerpt (only their call sites are).
Per the spec, a read buffer owns a byte slice with a monotonically advancing
bit cursor, `read_uint(n_bits)` returns the next `n` bits big-endian,
`read_int` is two's complement, and reading past the end fails (`TRUNCATED`).
A stream is a `List Bool` (MSB first); reading returns the value and the
remaining stream; writing produces the bit list appended by the caller. -/

/-- Value of a bit string read big-endian (most significant bit first). -/
def bitsToNat (bs : List Bool) : Nat :=
  bs.foldl (fun acc b => 2 * acc + (if b then 1 else 0)) 0

/-- Big-endian bit string of width `w` for the value `v` (truncated mod `2^w`),
the write-side of `write_uint(w)`. -/
def natToBits : Nat → Nat → List Bool
  | 0, _ => []
  | w + 1, v => natToBits w (v / 2) ++ [v % 2 == 1]

/-- `read_uint(w)`: take the next `w` bits big-endian, or fail if fewer remain. -/
def readUint (w : Nat) (bs : List Bool) : Option (Nat × List Bool) :=
  if w ≤ bs.length then some (bitsToNat (bs.take w), bs.drop w) else none

/-- `read_int(8)`: 8 bits, two's complement. -/
def readInt8 (bs : List Bool) : Option (Int × List Bool) :=
  match readUint 8 bs with
  | some (u, rest) => some (if 128 ≤ u then (u : Int) - 256 else (u : Int), rest)
  | none => none

/-- `write_int(8, v)`: the two's-complement byte of `v`. -/
def writeInt8Bits (v : Int) : List Bool :=
  natToBits 8 (v % 256).toNat

/-! ## AdsNotificationSample (src/unnamed/part_004) -/

/-- The `AdsNotificationSample` message: `NotificationHandle uint32`,
`SampleSize uint32`, `Data []int8`. -/
structure AdsNotificationSample where
  NotificationHandle : Nat
  SampleSize : Nat
  Data : List Int
deriving DecidableEq, Repr

/-- A well-formed `AdsNotificationSample`: the fields fit their Go types and
`SampleSize` equals the length of `Data` (the claim's well-formedness). -/
def AdsNotificationSample.WellFormed (m : AdsNotificationSample) : Prop :=
  m.NotificationHandle < 2 ^ 32 ∧ m.SampleSize < 2 ^ 32 ∧
    m.SampleSize = m.Data.length ∧ ∀ v ∈ m.Data, -128 ≤ v ∧ v < 128

/-- Serialization of the `data` array field: each `int8` element is written as
8 bits (`io.WriteInt8(8, _element)`). -/
def serializeInt8List : List Int → List Bool
  | [] => []
  | v :: rest => writeInt8Bits v ++ serializeInt8List rest

/-- `AdsNotificationSample.Serialize`: `WriteUint32(32, notificationHandle)`,
`WriteUint32(32, sampleSize)`, then each `data` element as 8 bits.  The write
buffer cannot fail on these calls, so the result is the produced bit stream. -/
def AdsNotificationSample.Serialize (m : AdsNotificationSample) : List Bool :=
  natToBits 32 m.NotificationHandle ++ natToBits 32 m.SampleSize ++
    serializeInt8List m.Data

/-- The parse loop for the `data` array: read `n` consecutive `int8` items. -/
def readInt8List : Nat → List Bool → Option (List Int × List Bool)
  | 0, bs => some ([], bs)
  | n + 1, bs =>
    match readInt8 bs with
    | none => none
    | some (v, bs1) =>
      match readInt8List n bs1 with
      | none => none
      | some (vs, bs2) => some (v :: vs, bs2)

/-- `AdsNotificationSampleParse`: reads `notificationHandle` (32 bits),
`sampleSize` (32 bits), then allocates `make([]int8, sampleSize)` and loops
`for curItem := uint16(0); curItem < uint16(sampleSize); curItem++`.  The Go
loop bound is the *uint16 narrowing* of the uint32 `sampleSize`, so only
`sampleSize % 2^16` items are read; the remaining slots keep the zero value
they were allocated with. -/
def AdsNotificationSampleParse (bs : List Bool) :
    Option (AdsNotificationSample × List Bool) :=
  match readUint 32 bs with
  | none => none
  | some (notificationHandle, bs1) =>
    match readUint 32 bs1 with
    | none => none
    | some (sampleSize, bs2) =>
      match readInt8List (sampleSize % 2 ^ 16) bs2 with
      | none => none
      | some (items, bs3) =>
        some (⟨notificationHandle, sampleSize,
               items ++ List.replicate (sampleSize - sampleSize % 2 ^ 16) 0⟩, bs3)

/-- `AdsNotificationSample.LengthInBits`: computed in `uint16` arithmetic,
`32 + 32` plus, when the array is non-empty, `8 * uint16(len(m.Data))`.
Every addition and the multiplication wrap mod `2^16`, and `len(m.Data)`
is narrowed to `uint16` first. -/
def AdsNotificationSample.LengthInBits (m : AdsNotificationSample) : Nat :=
  if 0 < m.Data.length then
    (64 + (8 * (m.Data.length % 2 ^ 16)) % 2 ^ 16) % 2 ^ 16
  else 64

/-! ## ApduDataExt (src/unnamed/part_005) -/

/-- Outcome of a parse procedure in the presence of Go runtime panics:
either a value with the unconsumed remainder of the stream, an error return,
or a crash (a nil-pointer dereference panic, which returns nothing at all). -/
inductive ParseOutcome (α : Type) where
  | ok (value : α) (rest : List Bool)
  | error (msg : String)
  | crash
deriving DecidableEq, Repr

/-- The `ApduDataExt` parent message with its child variant attached.  The
child type is abstract (`α`): the 41 generated sub-type structures are not
part of the excerpt. -/
structure ApduDataExt (α : Type) where
  Child : α
deriving DecidableEq, Repr

/-- The discriminator values for which the `switch` in `ApduDataExtParse` has
a case, exactly as enumerated in the source (41 values, `0x00` … `0x30`). -/
def ApduDataExtHasCase (extApciType : Nat) : Bool :=
  match extApciType with
  | 0x00 | 0x01 | 0x02 | 0x03
  | 0x08 | 0x09 | 0x0A
  | 0x0D | 0x0E | 0x0F
  | 0x10 | 0x11 | 0x12 | 0x13 | 0x14 | 0x15 | 0x16 | 0x17 | 0x18 | 0x19
  | 0x1A | 0x1B | 0x1C | 0x1D | 0x1E
  | 0x20 | 0x21 | 0x22 | 0x23 | 0x24 | 0x25 | 0x26 | 0x27 | 0x28 | 0x29
  | 0x2A | 0x2B | 0x2C | 0x2D | 0x2E
  | 0x30 => true
  | _ => false

/-- `ApduDataExtParse`.  Modelled from the spec: the 41 sub-type parsers
(`ApduDataExtOpenRoutingTableRequestParse` …) are not in the excerpt and are
supplied as a family `childParse` indexed by the discriminator value (the
source additionally passes `length` to the two property-value parsers; it is
passed uniformly here).  The parent parse itself follows the source exactly:
read the 6-bit `extApciType`, dispatch through the switch, and then call
`_parent.Child.InitializeParent(_parent)`.  When no case matches, the switch
leaves `_parent` nil and `typeSwitchError` nil, so that final call
dereferences a nil pointer: the outcome is `crash`. -/
def ApduDataExtParse {α : Type}
    (childParse : Nat → Nat → List Bool → ParseOutcome α)
    (bs : List Bool) (length : Nat) : ParseOutcome (ApduDataExt α) :=
  match readUint 6 bs with
  | none => .error "Error parsing extApciType field"
  | some (extApciType, rest) =>
    if ApduDataExtHasCase extApciType then
      match childParse extApciType length rest with
      | .ok child rest1 => .ok ⟨child⟩ rest1
      | .error e => .error ("Error parsing sub-type for type-switch. " ++ e)
      | .crash => .crash
    else
      .crash

/-- Whether a parse outcome is an error return (as opposed to a successful
return or a crash that returns nothing). -/
def ParseOutcome.isError {α : Type} : ParseOutcome α → Bool
  | .error _ => true
  | _ => false

/-- How `ApduDataExtParse` lifts a sub-type parser's outcome to the parent:
attach the child, or wrap the error with the type-switch message, or keep
crashing. -/
def liftApduChildOutcome {α : Type} : ParseOutcome α → ParseOutcome (ApduDataExt α)
  | .ok child rest => .ok ⟨child⟩ rest
  | .error e => .error ("Error parsing sub-type for type-switch. " ++ e)
  | .crash => .crash

/-- A sub-type parser family that consumes nothing and always succeeds with
the child value `0`; used to exercise `ApduDataExtParse` at concrete inputs
(the dispatch-miss behaviour does not depend on the family at all). -/
def trivialChildFamily : Nat → Nat → List Bool → ParseOutcome Nat :=
  fun _ _ bs => .ok 0 bs

/-! ## ApduControlContainer
(src/plc4go/internal/plc4go/knxnetip/readwrite/model/ApduControlContainer.go) -/

/-- `ApduControlContainer.LengthInBits`: `lengthInBits := uint16(0)` plus the
`ControlApdu` child's `LengthInBits()`.  The child's value is a `uint16`
(passed here as a `Nat` below `2^16`); the addition wraps mod `2^16`. -/
def ApduControlContainerLengthInBits (controlApduLengthInBits : Nat) : Nat :=
  (0 + controlApduLengthInBits) % 2 ^ 16

/-! ## S7 MessageCodec.Receive (src/plc4go/internal/plc4go/s7/MessageCodec.go) -/

/-- Modelled from the spec: the `TransportInstance` implementations are not in
the excerpt.  Per the spec's transport contract, an instance exposes
`get_num_readable_bytes` (non-blocking count), `peek_readable_bytes(n)`
(non-advancing) and `read(n)`; each may fail.  `σ` is the transport's state;
`read` returns the bytes together with the successor state. -/
structure TransportModel (σ : Type) where
  getNumReadableBytes : σ → Option Nat
  peekReadableBytes : σ → Nat → Option (List Nat)
  read : σ → Nat → Option (List Nat × σ)

/-- The deterministic buffered transport: the state is the list of readable
bytes; counting and peeking never consume, `read n` consumes exactly `n`
bytes, and peek/read fail when fewer than `n` bytes are buffered. -/
def bufferTransport : TransportModel (List Nat) where
  getNumReadableBytes s := some s.length
  peekReadableBytes s n := if n ≤ s.length then some (s.take n) else none
  read s n := if n ≤ s.length then some (s.take n, s.drop n) else none

/-- The packet-size computation of `MessageCodec.Receive`:
`packetSize := (uint32(data[4]) << 8) + uint32(data[5]) + 6` over the six
peeked header bytes. -/
def s7ComputePacketSize (data : List Nat) : Nat :=
  data.getD 4 0 * 256 + data.getD 5 0 + 6

/-- The minimum number of readable bytes `Receive` requires before it computes
the packet size (`num >= 6` in the source). -/
def s7MinimumHeaderBytes : Nat := 6

/-- The TPKT packet length as the claim states it: the length field at bytes
2–3, big-endian, total length including the 4-byte header.  Stated from the
claim's words for comparison with `s7ComputePacketSize`. -/
def tpktPacketLengthSpec (data : List Nat) : Nat :=
  data.getD 2 0 * 256 + data.getD 3 0

/-- `MessageCodec.Receive`.  Modelled over an abstract transport (`T`, state
`s`) and an abstract `COTPPacketParse` (`parse`, not in the excerpt), mirroring
the source control flow: count readable bytes; if counting succeeded and at
least 6 bytes are readable, peek 6 bytes, compute `packetSize`, give up
(`nil, nil`) if fewer than `packetSize` bytes are readable, otherwise read
`packetSize` bytes and parse them (the source narrows `packetSize` to `uint16`
for the parse argument).  Every failure path returns `(nil, nil)`; the Go
single-value-or-error pair is the `Option Msg × Option String` component, and
the possibly-consumed transport state is returned alongside. -/
def s7Receive {σ Msg : Type} (T : TransportModel σ)
    (parse : List Nat → Nat → Except String Msg) (s : σ) :
    (Option Msg × Option String) × σ :=
  match T.getNumReadableBytes s with
  | none => ((none, none), s)
  | some num =>
    if s7MinimumHeaderBytes ≤ num then
      match T.peekReadableBytes s 6 with
      | none => ((none, none), s)
      | some data =>
        let packetSize := s7ComputePacketSize data
        if num < packetSize then
          ((none, none), s)
        else
          match T.read s packetSize with
          | none => ((none, none), s)
          | some (packet, s1) =>
            match parse packet (packetSize % 2 ^ 16) with
            | .error _ => ((none, none), s1)
            | .ok msg => ((some msg, none), s1)
    else
      ((none, none), s)

/-! ## PlcDriverManger (src/plc4go/pkg/plc4go/driverManager.go) -/

/-- A registered driver, reduced to the attributes the manager consults:
`GetProtocolCode`, `GetProtocolName` and `GetDefaultTransport`. -/
structure PlcDriver where
  protocolCode : String
  protocolName : String
  defaultTransport : String
deriving DecidableEq, Repr

/-- A registered transport, reduced to its code and name. -/
structure PlcTransport where
  transportCode : String
  transportName : String
deriving DecidableEq, Repr

/-- The manager's state: the *protocol-code → driver* and
*transport-code → transport* mappings (Go maps, modelled as association
lists with first-match lookup and unique keys maintained by registration). -/
structure PlcDriverManger where
  drivers : List (String × PlcDriver)
  transports : List (String × PlcTransport)
deriving DecidableEq, Repr

/-- `RegisterDriver`: if the driver's protocol code is already a key, warn and
return without touching the map; otherwise store the driver under its code. -/
def RegisterDriver (m : PlcDriverManger) (d : PlcDriver) : PlcDriverManger :=
  if m.drivers.any (fun p => p.1 = d.protocolCode) then m
  else { m with drivers := m.drivers ++ [(d.protocolCode, d)] }

/-- `RegisterTransport`: the same pattern on the transport map. -/
def RegisterTransport (m : PlcDriverManger) (t : PlcTransport) : PlcDriverManger :=
  if m.transports.any (fun p => p.1 = t.transportCode) then m
  else { m with transports := m.transports ++ [(t.transportCode, t)] }

/-- `GetDriver`: map lookup, or the error `couldn't find driver <name>`. -/
def GetDriver (m : PlcDriverManger) (driverName : String) : Except String PlcDriver :=
  match m.drivers.find? (fun p => p.1 = driverName) with
  | some p => .ok p.2
  | none => .error ("couldn't find driver " ++ driverName)

/-- A parsed URL as the manager consumes it: `Scheme`, `Opaque`, `Host` and
the query options (`url.Query()`, a multi-valued map). -/
structure UrlModel where
  scheme : String
  opaqueData : String
  host : String
  query : List (String × List String)
deriving DecidableEq, Repr

/-- The value delivered on the manager's single-shot connect channel, up to
the point where work is handed to the driver: either an error result, or the
delegation `driver.GetConnection(transportUrl, transports, options)` with the
assembled transport URL and the options that accompany it. -/
inductive PlcConnectResult where
  | failure (msg : String)
  | delegated (driverCode : String) (transportUrl : UrlModel)
      (options : List (String × List String))
deriving DecidableEq, Repr

/-- `errors.Wrap(err, msg)`: the wrapping message, a colon and the cause. -/
def errorsWrap (cause msg : String) : String := msg ++ ": " ++ cause

/-- `PlcDriverManger.GetConnection` from the point where the connection string
has been parsed into `connectionUrl`.  Modelled from the spec: Go's
`url.Parse`, applied to re-parse the opaque part, is not in the excerpt and is
supplied as the oracle `opaqueParse`.  The logic mirrors the source: resolve
the driver by `connectionUrl.Scheme`; if the opaque part is non-empty,
re-parse it and take the transport name and host from the inner URL, else take
the driver's default transport and the outer host; fail if the transport name
is empty; otherwise assemble `transport://host` and delegate to the driver. -/
def MangerGetConnection (m : PlcDriverManger)
    (opaqueParse : String → Option UrlModel)
    (connectionUrl : UrlModel) : PlcConnectResult :=
  match GetDriver m connectionUrl.scheme with
  | .error e => .failure (errorsWrap e "error getting driver for connection string")
  | .ok driver =>
    if 0 < connectionUrl.opaqueData.length then
      match opaqueParse connectionUrl.opaqueData with
      | none => .failure "error parsing connection string"
      | some inner =>
        if inner.scheme = "" then
          .failure "no transport specified and no default defined by driver"
        else
          .delegated driver.protocolCode ⟨inner.scheme, "", inner.host, []⟩
            connectionUrl.query
    else
      if driver.defaultTransport = "" then
        .failure "no transport specified and no default defined by driver"
      else
        .delegated driver.protocolCode ⟨driver.defaultTransport, "", connectionUrl.host, []⟩
          connectionUrl.query

/-! ## S7 Driver.GetConnection (src/plc4go/internal/plc4go/s7/Driver.go) -/

/-- `options[key] = value` on the Go multi-valued options map: replace the
entry if the key is present, append it otherwise. -/
def setOption (options : List (String × List String)) (key : String)
    (value : List String) : List (String × List String) :=
  if options.any (fun p => p.1 = key) then
    options.map (fun p => if p.1 = key then (key, value) else p)
  else options ++ [(key, value)]

/-- The observable steps of `Driver.GetConnection`, in the order the source
can execute them. -/
inductive S7Step where
  | lookupTransport
  | injectDefaultPort
  | createTransportInstance
  | newMessageCodec
  | parseFromOptions
  | newDriverContext
  | newConnection
  | connectStart
deriving DecidableEq, Repr

/-- The single-shot result of `Driver.GetConnection`: an error result on the
returned channel, or the hand-off to `connection.Connect()`. -/
inductive S7Outcome where
  | failure (msg : String)
  | connectionPending
deriving DecidableEq, Repr

/-- Modelled from the spec: the collaborators `Driver.GetConnection` drives
(transport map and `CreateTransportInstance`, `ParseFromOptions`,
`NewDriverContext`) are not in the excerpt; each is abstracted by its success
or failure, with the fallible ones that receive the options map taking it as
an argument so that the injected default port stays observable. -/
structure S7Env where
  transportSchemes : List String
  createInstanceOk : List (String × List String) → Bool
  parseFromOptionsOk : List (String × List String) → Bool
  newDriverContextOk : Bool

/-- `Driver.GetConnection`, returning the single-shot outcome together with
the trace of executed steps.  Mirrors the source order: look up
`transports[transportUrl.Scheme]`; set `options["defaultTcpPort"] = ["102"]`;
`transport.CreateTransportInstance(transportUrl, options)`;
`NewMessageCodec(transportInstance)`; `ParseFromOptions(options)`;
`NewDriverContext(configuration)` — whose error the source assigns to `err`
and never checks; `NewConnection(...)`; `connection.Connect()`.  The first
three error checks each return an error result and stop. -/
def s7DriverGetConnection (env : S7Env) (transportUrl : UrlModel)
    (options : List (String × List String)) : S7Outcome × List S7Step :=
  if env.transportSchemes.contains transportUrl.scheme then
    let opts := setOption options "defaultTcpPort" ["102"]
    if env.createInstanceOk opts then
      if env.parseFromOptionsOk opts then
        (.connectionPending,
         [.lookupTransport, .injectDefaultPort, .createTransportInstance,
          .newMessageCodec, .parseFromOptions, .newDriverContext,
          .newConnection, .connectStart])
      else
        (.failure "Invalid options",
         [.lookupTransport, .injectDefaultPort, .createTransportInstance,
          .newMessageCodec, .parseFromOptions])
    else
      (.failure ("couldn't initialize transport configuration for given transport url "
          ++ transportUrl.scheme ++ "://" ++ transportUrl.host),
       [.lookupTransport, .injectDefaultPort, .createTransportInstance])
  else
    (.failure "couldn't find transport for given transport url",
     [.lookupTransport])

/-! ## Concrete fixtures -/

/-- A well-formed `AdsNotificationSample` whose `SampleSize` does not fit in
a `uint16`: 65536 data bytes, each of value 1. -/
def adsOversizedSample : AdsNotificationSample :=
  ⟨5, 65536, List.replicate 65536 1⟩

/-- A well-formed `AdsNotificationSample` with 8184 data bytes, so that
`64 + 8 * 8184 = 65536` overflows the `uint16` length arithmetic. -/
def adsLengthOverflowSample : AdsNotificationSample :=
  ⟨0, 8184, List.replicate 8184 0⟩

/-- A 22-byte TPKT packet: TPKT header `03 00 00 16` (version 3, reserved 0,
length 0x0016 = 22 including the header) followed by an 18-byte COTP
connection-request part whose first two bytes are the COTP header length 17
and the PDU type `0xE0`. -/
def tpktExamplePacket : List Nat :=
  [3, 0, 0, 22, 17, 224] ++ List.replicate 16 0

/-- A `COTPPacketParse` stand-in that always succeeds; used where the
behaviour under test never reaches the parser. -/
def alwaysOkPacketParse : List Nat → Nat → Except String Nat :=
  fun _ _ => .ok 0

/-- An `S7Env` in which the transport `tcp` exists, transport-instance
creation succeeds, and `ParseFromOptions` fails. -/
def s7EnvParseOptionsFails : S7Env where
  transportSchemes := ["tcp"]
  createInstanceOk := fun _ => true
  parseFromOptionsOk := fun _ => false
  newDriverContextOk := true

/-- An `S7Env` in which every collaborator succeeds. -/
def s7EnvAllOk : S7Env where
  transportSchemes := ["tcp"]
  createInstanceOk := fun _ => true
  parseFromOptionsOk := fun _ => true
  newDriverContextOk := true

/-- The S7 driver as registered by `NewDriver` (`GetProtocolCode`,
`GetProtocolName`, `GetDefaultTransport` from src Driver.go). -/
def s7Driver : PlcDriver :=
  ⟨"s7", "Siemens S7 (Basic)", "tcp"⟩

/-- A manager holding exactly the S7 driver. -/
def s7OnlyManager : PlcDriverManger :=
  ⟨[("s7", s7Driver)], []⟩

/-- An opaque-part oracle resolving `tcp://10.0.0.1` the way Go's
`url.Parse` does (scheme `tcp`, host `10.0.0.1`). -/
def tcpOpaqueParse : String → Option UrlModel :=
  fun s => if s = "tcp://10.0.0.1" then some ⟨"tcp", "", "10.0.0.1", []⟩ else none

/-! ## Bit-buffer lemmas -/

theorem length_natToBits (w v : Nat) : (natToBits w v).length = w := by
  induction w generalizing v with
  | zero => rfl
  | succ w ih => simp [natToBits, ih]

theorem bitsToNat_append_bit (xs : List Bool) (b : Bool) :
    bitsToNat (xs ++ [b]) = 2 * bitsToNat xs + (if b then 1 else 0) := by
  unfold bitsToNat
  rw [List.foldl_append]
  rfl

theorem bitsToNat_natToBits (w v : Nat) : bitsToNat (natToBits w v) = v % 2 ^ w := by
  induction w generalizing v with
  | zero => simp [natToBits, bitsToNat, Nat.mod_one]
  | succ w ih =>
    rw [natToBits, bitsToNat_append_bit, ih]
    have hsplit : v % (2 * 2 ^ w) = v % 2 + 2 * (v / 2 % 2 ^ w) := Nat.mod_mul
    have hpow : 2 ^ (w + 1) = 2 * 2 ^ w := by ring
    have hb : (if (v % 2 == 1) = true then 1 else 0) = v % 2 := by
      rcases Nat.mod_two_eq_zero_or_one v with h | h <;> simp [h]
    rw [hpow, hsplit, hb]
    ring

theorem readUint_natToBits_append (w v : Nat) (rest : List Bool) (h : v < 2 ^ w) :
    readUint w (natToBits w v ++ rest) = some (v, rest) := by
  unfold readUint
  have hlen : (natToBits w v).length = w := length_natToBits w v
  have hle : w ≤ (natToBits w v ++ rest).length := by
    simp [hlen]
  rw [if_pos hle]
  have htake := List.take_left (natToBits w v) rest
  have hdrop := List.drop_left (natToBits w v) rest
  rw [hlen] at htake hdrop
  rw [htake, hdrop, bitsToNat_natToBits, Nat.mod_eq_of_lt h]

theorem readInt8_writeInt8 (v : Int) (rest : List Bool)
    (h1 : -128 ≤ v) (h2 : v < 128) :
    readInt8 (writeInt8Bits v ++ rest) = some (v, rest) := by
  have hu : (v % 256).toNat < 2 ^ 8 := by omega
  have hcast : (((v % 256).toNat : Int)) = v % 256 := by omega
  unfold readInt8 writeInt8Bits
  rw [readUint_natToBits_append 8 ((v % 256).toNat) rest hu]
  show some ((if 128 ≤ (v % 256).toNat then (((v % 256).toNat : Int)) - 256
      else (((v % 256).toNat : Int))), rest) = some (v, rest)
  split_ifs with hge <;>
    simp only [Option.some.injEq, Prod.mk.injEq, and_true] <;> omega

theorem length_serializeInt8List (l : List Int) :
    (serializeInt8List l).length = 8 * l.length := by
  induction l with
  | nil => rfl
  | cons v t ih =>
    simp [serializeInt8List, writeInt8Bits, length_natToBits, ih]
    ring

theorem readInt8List_serializeInt8List (l : List Int) (rest : List Bool)
    (h : ∀ v ∈ l, -128 ≤ v ∧ v < 128) :
    readInt8List l.length (serializeInt8List l ++ rest) = some (l, rest) := by
  induction l with
  | nil => rfl
  | cons v t ih =>
    have hv := h v (by simp)
    have ht : ∀ x ∈ t, -128 ≤ x ∧ x < 128 := fun x hx => h x (by simp [hx])
    have h1 := readInt8_writeInt8 v (serializeInt8List t ++ rest) hv.1 hv.2
    have h2 := ih ht
    simp only [List.length_cons, serializeInt8List, readInt8List,
      List.append_assoc, h1, h2]

theorem readInt8List_prefix (n : Nat) (l : List Int) (rest : List Bool)
    (hn : n ≤ l.length) (h : ∀ v ∈ l, -128 ≤ v ∧ v < 128) :
    readInt8List n (serializeInt8List l ++ rest) =
      some (l.take n, serializeInt8List (l.drop n) ++ rest) := by
  induction n generalizing l with
  | zero => simp [readInt8List]
  | succ n ih =>
    cases l with
    | nil => simp at hn
    | cons v t =>
      have hv := h v (by simp)
      have ht : ∀ x ∈ t, -128 ≤ x ∧ x < 128 := fun x hx => h x (by simp [hx])
      have h1 := readInt8_writeInt8 v (serializeInt8List t ++ rest) hv.1 hv.2
      have h2 := ih t (by simpa using hn) ht
      simp only [serializeInt8List, List.append_assoc, readInt8List, h1, h2,
        List.take_succ_cons, List.drop_succ_cons]

/-- What `AdsNotificationSampleParse` returns on the output of
`AdsNotificationSample.Serialize` for any message whose fields fit their Go
types: the handle and size round-trip, but only `SampleSize % 2^16` data
items are read back (the `uint16` loop bound); the rest of the allocated
array stays zero and the corresponding bytes stay unconsumed. -/
theorem AdsParse_of_Serialize (m : AdsNotificationSample)
    (h1 : m.NotificationHandle < 2 ^ 32) (h2 : m.SampleSize < 2 ^ 32)
    (h3 : m.SampleSize = m.Data.length)
    (h4 : ∀ v ∈ m.Data, -128 ≤ v ∧ v < 128) :
    AdsNotificationSampleParse m.Serialize =
      some (⟨m.NotificationHandle, m.SampleSize,
             m.Data.take (m.SampleSize % 2 ^ 16) ++
               List.replicate (m.SampleSize - m.SampleSize % 2 ^ 16) 0⟩,
            serializeInt8List (m.Data.drop (m.SampleSize % 2 ^ 16))) := by
  obtain ⟨h, s, d⟩ := m
  dsimp only at h1 h2 h3 h4 ⊢
  have hn : s % 2 ^ 16 ≤ d.length := h3 ▸ Nat.mod_le s (2 ^ 16)
  unfold AdsNotificationSample.Serialize AdsNotificationSampleParse
  dsimp only
  rw [List.append_assoc, readUint_natToBits_append 32 _ _ h1]
  dsimp only
  rw [readUint_natToBits_append 32 _ _ h2]
  dsimp only
  rw [show serializeInt8List d = serializeInt8List d ++ [] by simp,
    readInt8List_prefix (s % 2 ^ 16) d [] hn h4]
  dsimp only
  rw [List.append_nil]

theorem replicate_ne_replicate (n : Nat) (hn : 0 < n) (a b : Int) (hab : a ≠ b) :
    List.replicate n a ≠ List.replicate n b := by
  cases n with
  | zero => omega
  | succ n =>
    intro heq
    rw [List.replicate_succ, List.replicate_succ] at heq
    exact hab (List.cons.injEq .. ▸ heq).1

/-! ## Claim C1 -/

/-- Claim C1: parse after serialize is the identity on every well-formed
message.  Evaluated at the failing input `adsOversizedSample` (a well-formed
`AdsNotificationSample` with `SampleSize = 65536 = len(Data)`): because the
parse loop bound is `uint16(sampleSize)`, the parser reads zero data items
and returns a message whose `Data` is 65536 zero bytes, so the round trip
does not return the original message.  This contradicts the claim (and the
parser's own `make([]int8, sampleSize)` allocation, which shows the intent
to read all `sampleSize` items). -/
theorem c1_ads_roundtrip_fails_at_65536 :
    adsOversizedSample.WellFormed ∧
    AdsNotificationSampleParse adsOversizedSample.Serialize =
      some (⟨5, 65536, List.replicate 65536 0⟩,
            serializeInt8List (List.replicate 65536 1)) ∧
    (⟨5, 65536, List.replicate 65536 0⟩ : AdsNotificationSample) ≠
      adsOversizedSample := by
  have hlen : (65536 : Nat) = (List.replicate 65536 (1 : Int)).length := by
    rw [List.length_replicate]
  have hmem : ∀ v ∈ List.replicate 65536 (1 : Int), -128 ≤ v ∧ v < 128 := by
    intro v hv
    rw [List.eq_of_mem_replicate hv]
    omega
  have hh : adsOversizedSample.NotificationHandle < 2 ^ 32 := by
    show (5 : Nat) < 2 ^ 32
    norm_num
  have hs : adsOversizedSample.SampleSize < 2 ^ 32 := by
    show (65536 : Nat) < 2 ^ 32
    norm_num
  refine ⟨⟨hh, hs, hlen, hmem⟩, ?_, ?_⟩
  · have hgen := AdsParse_of_Serialize adsOversizedSample hh hs hlen hmem
    rw [hgen]
    norm_num [adsOversizedSample]
  · intro h
    rw [show adsOversizedSample =
        (⟨5, 65536, List.replicate 65536 1⟩ : AdsNotificationSample) from rfl] at h
    simp only [AdsNotificationSample.mk.injEq] at h
    exact replicate_ne_replicate 65536 (by norm_num) 0 1 (by norm_num) h.2.2

/-! ## Claim C2 -/

theorem length_Serialize (m : AdsNotificationSample) :
    m.Serialize.length = 64 + 8 * m.Data.length := by
  simp [AdsNotificationSample.Serialize, length_natToBits,
    length_serializeInt8List]
  omega

/-- Claim C2 counterexample: at a well-formed `AdsNotificationSample` with
8184 data bytes, `Serialize` writes `64 + 8 * 8184 = 65536` bits while
`LengthInBits()` — computed in `uint16` — returns 0, so the number of bits
written by a successful `Serialize(m)` does not equal `m.LengthInBits()`. -/
theorem c2_lengthInBits_overflow_at_8184 :
    adsLengthOverflowSample.Serialize.length = 65536 ∧
    AdsNotificationSample.LengthInBits adsLengthOverflowSample = 0 ∧
    adsLengthOverflowSample.Serialize.length ≠
      AdsNotificationSample.LengthInBits adsLengthOverflowSample := by
  have h1 : adsLengthOverflowSample.Serialize.length = 65536 := by
    rw [length_Serialize]
    simp only [adsLengthOverflowSample]
    rw [List.length_replicate]
  have h2 : AdsNotificationSample.LengthInBits adsLengthOverflowSample = 0 := by
    unfold AdsNotificationSample.LengthInBits adsLengthOverflowSample
    rw [List.length_replicate]
    norm_num
  exact ⟨h1, h2, by rw [h1, h2]; norm_num⟩

/-- Claim C2 (amended): `Serialize` always writes exactly
`32 + 32 + 8 * len(Data)` bits for an `AdsNotificationSample`; this equals
`m.LengthInBits()` whenever `64 + 8 * len(Data)` fits in a `uint16` (for
larger arrays the `uint16` length arithmetic wraps); and
`ApduControlContainer.LengthInBits()` is exactly the `ControlApdu` child's
`LengthInBits()` (the container contributes no fields of its own). -/
theorem c2_serialize_length_matches_lengthInBits (m : AdsNotificationSample)
    (c : Nat) (hc : c < 2 ^ 16) :
    m.Serialize.length = 64 + 8 * m.Data.length ∧
    (64 + 8 * m.Data.length < 2 ^ 16 →
      AdsNotificationSample.LengthInBits m = m.Serialize.length) ∧
    ApduControlContainerLengthInBits c = c := by
  have h65536 : (2 : Nat) ^ 16 = 65536 := by norm_num
  refine ⟨length_Serialize m, ?_, ?_⟩
  · intro hfit
    rw [length_Serialize m]
    unfold AdsNotificationSample.LengthInBits
    rw [h65536] at hfit ⊢
    split
    · rw [Nat.mod_eq_of_lt (by omega), Nat.mod_eq_of_lt (by omega),
        Nat.mod_eq_of_lt (by omega)]
    · omega
  · unfold ApduControlContainerLengthInBits
    rw [Nat.zero_add]
    exact Nat.mod_eq_of_lt hc

/-- Claim C2 witness: the amended theorem at the one-byte message
`⟨0, 1, [7]⟩` and the child length 100. -/
theorem c2_witness :
    (100 : Nat) < 2 ^ 16 ∧ 64 + 8 * ([(7 : Int)]).length < 2 ^ 16 ∧
    AdsNotificationSample.LengthInBits ⟨0, 1, [7]⟩ =
      (⟨0, 1, [7]⟩ : AdsNotificationSample).Serialize.length ∧
    ApduControlContainerLengthInBits 100 = 100 :=
  ⟨by norm_num, by norm_num,
   (c2_serialize_length_matches_lengthInBits ⟨0, 1, [7]⟩ 100 (by norm_num)).2.1
     (by norm_num),
   (c2_serialize_length_matches_lengthInBits ⟨0, 1, [7]⟩ 100 (by norm_num)).2.2⟩

/-! ## Claim C3 -/

/-- Claim C3 counterexample: the 6-bit value `0x04` is outside the generated
table.  `ApduDataExtParse` on a stream starting with those 6 bits does not
fail with an `UNKNOWN_DISCRIMINATOR` error — the switch leaves the parent
nil and the subsequent `InitializeParent` call is a nil-pointer dereference
(`crash`), after the 6 discriminator bits have already been consumed. -/
theorem c3_unknown_discriminator_crashes :
    ApduDataExtParse trivialChildFamily (natToBits 6 0x04) 0 = .crash ∧
    (ApduDataExtParse trivialChildFamily (natToBits 6 0x04) 0).isError = false := by
  constructor <;> rfl

/-- Claim C3 (amended): `ApduDataExtParse` dispatches to a sub-type parser
exactly for the 6-bit `extApciType` values in the generated table; for every
6-bit value outside the table the parse neither succeeds nor returns an
error — the Go code panics on a nil parent dereference — and the 6
discriminator bits have been consumed before the sub-type parser (or the
crash) is reached. -/
theorem c3_dispatch_exactly_on_table {α : Type}
    (childParse : Nat → Nat → List Bool → ParseOutcome α)
    (v : Nat) (hv : v < 64) (rest : List Bool) (len : Nat) :
    (ApduDataExtHasCase v = true →
      ApduDataExtParse childParse (natToBits 6 v ++ rest) len =
        liftApduChildOutcome (childParse v len rest)) ∧
    (ApduDataExtHasCase v = false →
      ApduDataExtParse childParse (natToBits 6 v ++ rest) len = .crash) := by
  have hread := readUint_natToBits_append 6 v rest (by norm_num; omega)
  constructor <;> intro hcase <;>
    · unfold ApduDataExtParse
      rw [hread]
      dsimp only
      rw [hcase]
      cases childParse v len rest <;> rfl

/-- Claim C3 witness: the amended theorem at the in-table discriminator
`0x11` (`ApduDataExtAuthorizeRequest`) with the trivial sub-parser family
and at the out-of-table discriminator `0x05`. -/
theorem c3_witness :
    (0x11 : Nat) < 64 ∧ ApduDataExtHasCase 0x11 = true ∧
    ApduDataExtParse trivialChildFamily (natToBits 6 0x11 ++ []) 0 =
      liftApduChildOutcome (trivialChildFamily 0x11 0 []) ∧
    (0x05 : Nat) < 64 ∧ ApduDataExtHasCase 0x05 = false ∧
    ApduDataExtParse trivialChildFamily (natToBits 6 0x05 ++ []) 0 = .crash :=
  ⟨by norm_num, rfl,
   (c3_dispatch_exactly_on_table trivialChildFamily 0x11 (by norm_num) [] 0).1 rfl,
   by norm_num, rfl,
   (c3_dispatch_exactly_on_table trivialChildFamily 0x05 (by norm_num) [] 0).2 rfl⟩

/-! ## Claim C4 -/

/-- Claim C4: the claim says `Receive` computes the full packet length from
the TPKT length field at bytes 2–3 (big-endian, total including the 4-byte
header) and needs a minimum peek of 4 bytes.  Evaluated on a concrete
22-byte TPKT packet: the code instead requires 6 readable bytes, computes
`(data[4] << 8) + data[5] + 6 = 4582` (bytes 4–5 are already COTP bytes)
instead of the TPKT length 22, and consequently returns no message even
with the whole 22-byte packet buffered.  The source's own comment marks the
computation `TODO: wrong size for s7`. -/
theorem c4_packet_length_from_wrong_bytes :
    tpktExamplePacket.length = 22 ∧
    tpktPacketLengthSpec tpktExamplePacket = 22 ∧
    s7ComputePacketSize (tpktExamplePacket.take 6) = 4582 ∧
    s7MinimumHeaderBytes = 6 ∧
    s7Receive bufferTransport alwaysOkPacketParse (tpktExamplePacket.take 4) =
      ((none, none), tpktExamplePacket.take 4) ∧
    s7Receive bufferTransport alwaysOkPacketParse tpktExamplePacket =
      ((none, none), tpktExamplePacket) := by
  refine ⟨by decide, by decide, by decide, rfl, by decide, by decide⟩

/-! ## Claims C5 and C10 -/

/-- Claim C5: with the buffered transport, `Receive` returns no message and
leaves the buffer untouched when fewer than the 6-byte minimum or fewer than
the computed packet size are buffered; once at least the computed packet
size is buffered and the packet parses, it returns the parsed message and
consumes exactly the packet bytes. -/
theorem c5_receive_nondestructive_framing {Msg : Type}
    (parse : List Nat → Nat → Except String Msg) (s : List Nat) :
    (s.length < s7MinimumHeaderBytes →
      s7Receive bufferTransport parse s = ((none, none), s)) ∧
    (s7MinimumHeaderBytes ≤ s.length →
      s.length < s7ComputePacketSize (s.take 6) →
      s7Receive bufferTransport parse s = ((none, none), s)) ∧
    (∀ msg, s7MinimumHeaderBytes ≤ s.length →
      s7ComputePacketSize (s.take 6) ≤ s.length →
      parse (s.take (s7ComputePacketSize (s.take 6)))
          (s7ComputePacketSize (s.take 6) % 2 ^ 16) = .ok msg →
      s7Receive bufferTransport parse s =
        ((some msg, none), s.drop (s7ComputePacketSize (s.take 6)))) := by
  unfold s7Receive bufferTransport s7MinimumHeaderBytes
  dsimp only
  refine ⟨?_, ?_, ?_⟩
  · intro hlt
    rw [if_neg (by omega)]
  · intro hge hlt
    rw [if_pos hge, if_pos (by omega)]
    dsimp only
    rw [if_pos hlt]
  · intro msg hge hsize hparse
    rw [if_pos hge, if_pos (by omega)]
    dsimp only
    rw [if_neg (by omega), if_pos hsize]
    dsimp only
    rw [hparse]

/-- Claim C5 witness: a 6-byte buffer whose computed packet size is 6, with
a parser that accepts it: `Receive` returns the message and drains the
buffer (and on a 3-byte buffer it returns no message and consumes
nothing). -/
theorem c5_witness :
    ([(0 : Nat), 0, 0] : List Nat).length < s7MinimumHeaderBytes ∧
    s7Receive bufferTransport alwaysOkPacketParse [0, 0, 0] =
      ((none, none), [0, 0, 0]) ∧
    s7ComputePacketSize (([(0 : Nat), 0, 0, 0, 0, 0]).take 6) ≤
      ([(0 : Nat), 0, 0, 0, 0, 0]).length ∧
    s7Receive bufferTransport alwaysOkPacketParse [0, 0, 0, 0, 0, 0] =
      ((some 0, none), []) :=
  ⟨by decide,
   (c5_receive_nondestructive_framing alwaysOkPacketParse [0, 0, 0]).1 (by decide),
   by decide,
   (c5_receive_nondestructive_framing alwaysOkPacketParse
       [0, 0, 0, 0, 0, 0]).2.2 0 (by decide) (by decide) rfl⟩

/-- Claim C10: `MessageCodec.Receive` never returns a non-nil error: over
every transport behaviour (counting, peeking or reading may fail) and every
parse outcome, the error component of the returned pair is nil, so a caller
cannot distinguish a failure from `no complete message available yet`. -/
theorem c10_receive_error_always_nil {σ Msg : Type} (T : TransportModel σ)
    (parse : List Nat → Nat → Except String Msg) (s : σ) :
    ((s7Receive T parse s).1).2 = none := by
  unfold s7Receive
  cases T.getNumReadableBytes s with
  | none => rfl
  | some num =>
    dsimp only
    split
    · cases T.peekReadableBytes s 6 with
      | none => rfl
      | some data =>
        dsimp only
        split
        · rfl
        · cases T.read s (s7ComputePacketSize data) with
          | none => rfl
          | some pr =>
            dsimp only
            cases parse pr.1 (s7ComputePacketSize data % 2 ^ 16) <;> rfl
    · rfl

/-! ## Claims C6 and C7 -/

/-- Claim C6: after the driver is resolved, `GetConnection` takes the
transport name and host from the re-parsed opaque part when it is non-empty,
and otherwise the driver's default transport with the outer URL's host; if
the resulting transport name is empty it yields the single error result
`no transport specified and no default defined by driver` and never reaches
the driver's `GetConnection`. -/
theorem c6_transport_resolution (m : PlcDriverManger)
    (opaqueParse : String → Option UrlModel) (u : UrlModel)
    (driver : PlcDriver) (hdrv : GetDriver m u.scheme = .ok driver) :
    (∀ inner, 0 < u.opaqueData.length →
      opaqueParse u.opaqueData = some inner →
      MangerGetConnection m opaqueParse u =
        (if inner.scheme = "" then
          .failure "no transport specified and no default defined by driver"
         else
          .delegated driver.protocolCode ⟨inner.scheme, "", inner.host, []⟩
            u.query)) ∧
    (u.opaqueData.length = 0 →
      MangerGetConnection m opaqueParse u =
        (if driver.defaultTransport = "" then
          .failure "no transport specified and no default defined by driver"
         else
          .delegated driver.protocolCode
            ⟨driver.defaultTransport, "", u.host, []⟩ u.query)) := by
  unfold MangerGetConnection
  rw [hdrv]
  dsimp only
  constructor
  · intro inner hlen hparse
    rw [if_pos hlen, hparse]
  · intro hlen
    rw [if_neg (by omega)]

/-- Claim C6 witness: the S7-only manager at the opaque URL
`s7:tcp://10.0.0.1` resolves the transport `tcp` with host `10.0.0.1` and
delegates to the driver; the hypotheses are discharged at those concrete
values. -/
theorem c6_witness :
    GetDriver s7OnlyManager "s7" = .ok s7Driver ∧
    MangerGetConnection s7OnlyManager tcpOpaqueParse
        ⟨"s7", "tcp://10.0.0.1", "", []⟩ =
      .delegated "s7" ⟨"tcp", "", "10.0.0.1", []⟩ [] := by
  refine ⟨rfl, ?_⟩
  have h := (c6_transport_resolution s7OnlyManager tcpOpaqueParse
      ⟨"s7", "tcp://10.0.0.1", "", []⟩ s7Driver rfl).1
      ⟨"tcp", "", "10.0.0.1", []⟩ (by decide) rfl
  rw [h]
  rfl

/-- Claim C7: for a connection URL whose scheme is not a registered driver
code, `GetConnection` delivers exactly one result on the connect channel
(modelled as the single returned `PlcConnectResult`), an error whose message
contains the unknown driver name; and `GetDriver` returns an error for every
code absent from the driver map. -/
theorem c7_unknown_driver_not_found (m : PlcDriverManger)
    (opaqueParse : String → Option UrlModel) (u : UrlModel)
    (h : m.drivers.find? (fun p => p.1 = u.scheme) = none) :
    MangerGetConnection m opaqueParse u =
      .failure ("error getting driver for connection string" ++ ": " ++
        ("couldn't find driver " ++ u.scheme)) ∧
    GetDriver m u.scheme = .error ("couldn't find driver " ++ u.scheme) := by
  have hget : GetDriver m u.scheme = .error ("couldn't find driver " ++ u.scheme) := by
    unfold GetDriver
    rw [h]
  refine ⟨?_, hget⟩
  unfold MangerGetConnection errorsWrap
  rw [hget]

/-- Claim C7 witness: the S7-only manager at the URL `xyz://host`: the
single connect result is the error whose message ends with `xyz`. -/
theorem c7_witness :
    MangerGetConnection s7OnlyManager tcpOpaqueParse ⟨"xyz", "", "host", []⟩ =
      .failure ("error getting driver for connection string" ++ ": " ++
        ("couldn't find driver " ++ "xyz")) ∧
    GetDriver s7OnlyManager "xyz" = .error ("couldn't find driver " ++ "xyz") :=
  c7_unknown_driver_not_found s7OnlyManager tcpOpaqueParse
    ⟨"xyz", "", "host", []⟩ (by decide)

/-! ## Claim C8 -/

/-- Claim C8 counterexample: with a transport for `tcp` present, instance
creation succeeding and `ParseFromOptions` failing, the executed trace shows
the `MessageCodec` being constructed *before* the configuration is parsed —
so the claimed order (configuration parse before codec construction) and the
claimed `no later step runs after a failure` are both false at this input. -/
theorem c8_codec_built_before_options_parsed :
    (s7DriverGetConnection s7EnvParseOptionsFails ⟨"tcp", "", "10.0.0.1", []⟩ []).2 =
      [.lookupTransport, .injectDefaultPort, .createTransportInstance,
       .newMessageCodec, .parseFromOptions] ∧
    S7Step.newMessageCodec ∈
      (s7DriverGetConnection s7EnvParseOptionsFails ⟨"tcp", "", "10.0.0.1", []⟩ []).2 ∧
    (s7DriverGetConnection s7EnvParseOptionsFails ⟨"tcp", "", "10.0.0.1", []⟩ []).1 =
      .failure "Invalid options" := by
  refine ⟨rfl, ?_, rfl⟩
  decide

/-- Claim C8 (amended): `Driver.GetConnection` executes, strictly in this
order: transport lookup by the transport URL's scheme, injection of
`defaultTcpPort=102` into the options, `CreateTransportInstance`,
`NewMessageCodec` (before the configuration is parsed), `ParseFromOptions`,
`NewDriverContext` — whose error the code ignores — `NewConnection` and
`Connect`.  Failures of the transport lookup, the instance creation and the
configuration parsing each deliver a single error result and stop; a
driver-context failure does not. -/
theorem c8_pipeline_order (env : S7Env) (u : UrlModel)
    (options : List (String × List String)) :
    (env.transportSchemes.contains u.scheme = false →
      s7DriverGetConnection env u options =
        (.failure "couldn't find transport for given transport url",
         [.lookupTransport])) ∧
    (env.transportSchemes.contains u.scheme = true →
      (env.createInstanceOk (setOption options "defaultTcpPort" ["102"]) = false →
        s7DriverGetConnection env u options =
          (.failure ("couldn't initialize transport configuration for given transport url "
              ++ u.scheme ++ "://" ++ u.host),
           [.lookupTransport, .injectDefaultPort, .createTransportInstance])) ∧
      (env.createInstanceOk (setOption options "defaultTcpPort" ["102"]) = true →
        (env.parseFromOptionsOk (setOption options "defaultTcpPort" ["102"]) = false →
          s7DriverGetConnection env u options =
            (.failure "Invalid options",
             [.lookupTransport, .injectDefaultPort, .createTransportInstance,
              .newMessageCodec, .parseFromOptions])) ∧
        (env.parseFromOptionsOk (setOption options "defaultTcpPort" ["102"]) = true →
          s7DriverGetConnection env u options =
            (.connectionPending,
             [.lookupTransport, .injectDefaultPort, .createTransportInstance,
              .newMessageCodec, .parseFromOptions, .newDriverContext,
              .newConnection, .connectStart])))) ∧
    (∀ b, s7DriverGetConnection { env with newDriverContextOk := b } u options =
      s7DriverGetConnection env u options) := by
  unfold s7DriverGetConnection
  refine ⟨?_, ?_, ?_⟩
  · intro hmiss
    rw [if_neg (by rw [hmiss]; exact Bool.false_ne_true)]
  · intro hhit
    rw [if_pos (by rw [hhit])]
    dsimp only
    refine ⟨?_, ?_⟩
    · intro hcreate
      rw [if_neg (by rw [hcreate]; exact Bool.false_ne_true)]
    · intro hcreate
      rw [if_pos (by rw [hcreate])]
      refine ⟨?_, ?_⟩
      · intro hparse
        rw [if_neg (by rw [hparse]; exact Bool.false_ne_true)]
      · intro hparse
        rw [if_pos (by rw [hparse])]
  · intro b
    rfl

/-- Claim C8 witness: the amended theorem at the all-success environment and
the transport URL `tcp://10.0.0.1`: the full pipeline runs in source
order. -/
theorem c8_witness :
    s7EnvAllOk.transportSchemes.contains "tcp" = true ∧
    s7EnvAllOk.createInstanceOk (setOption [] "defaultTcpPort" ["102"]) = true ∧
    s7EnvAllOk.parseFromOptionsOk (setOption [] "defaultTcpPort" ["102"]) = true ∧
    s7DriverGetConnection s7EnvAllOk ⟨"tcp", "", "10.0.0.1", []⟩ [] =
      (.connectionPending,
       [.lookupTransport, .injectDefaultPort, .createTransportInstance,
        .newMessageCodec, .parseFromOptions, .newDriverContext,
        .newConnection, .connectStart]) :=
  ⟨by decide, rfl, rfl,
   (((c8_pipeline_order s7EnvAllOk ⟨"tcp", "", "10.0.0.1", []⟩ []).2.1
       (by decide)).2 rfl).2 rfl⟩

/-! ## Claim C9 -/

theorem find?_append_some {α : Type} (p : α → Bool) (l1 l2 : List α) (a : α)
    (h : l1.find? p = some a) : (l1 ++ l2).find? p = some a := by
  induction l1 with
  | nil => simp [List.find?] at h
  | cons x t ih =>
    rw [List.cons_append]
    rw [List.find?] at h ⊢
    cases hx : p x with
    | true => rw [hx] at h; simpa [hx] using h
    | false => rw [hx] at h; simpa [hx] using ih h

theorem find?_append_none {α : Type} (p : α → Bool) (l1 l2 : List α)
    (h : l1.find? p = none) : (l1 ++ l2).find? p = l2.find? p := by
  induction l1 with
  | nil => simp
  | cons x t ih =>
    rw [List.cons_append]
    rw [List.find?] at h ⊢
    cases hx : p x with
    | true => rw [hx] at h; exact absurd h (by simp)
    | false => rw [hx] at h; simpa [hx] using ih h

/-- Claim C9: registering a driver whose protocol code is already a key
leaves the manager unchanged; after registering a driver under a fresh code,
`GetDriver` of that code returns exactly that driver; and neither another
driver registration nor a transport registration removes an existing
mapping. -/
theorem c9_registration_idempotent_and_stable (m : PlcDriverManger)
    (d d1 : PlcDriver) (t : PlcTransport) (code : String) :
    (m.drivers.any (fun p => p.1 = d.protocolCode) = true →
      RegisterDriver m d = m) ∧
    (m.drivers.any (fun p => p.1 = d.protocolCode) = false →
      GetDriver (RegisterDriver m d) d.protocolCode = .ok d) ∧
    (∀ d0, GetDriver m code = .ok d0 →
      GetDriver (RegisterDriver m d1) code = .ok d0) ∧
    (RegisterTransport m t).drivers = m.drivers := by
  refine ⟨?_, ?_, ?_, ?_⟩
  · intro hdup
    unfold RegisterDriver
    rw [if_pos hdup]
  · intro hfresh
    unfold RegisterDriver GetDriver
    rw [if_neg (by rw [hfresh]; exact Bool.false_ne_true)]
    dsimp only
    have hnone : m.drivers.find? (fun p => p.1 = d.protocolCode) = none := by
      rw [List.find?_eq_none]
      intro x hx
      have := (List.any_eq_false).1 hfresh x hx
      simpa using this
    rw [find?_append_none _ _ _ hnone]
    simp [List.find?]
  · intro d0 hget
    unfold GetDriver at hget ⊢
    unfold RegisterDriver
    cases hfind : m.drivers.find? (fun p => p.1 = code) with
    | none => rw [hfind] at hget; exact absurd hget (by simp)
    | some q =>
      rw [hfind] at hget
      by_cases hany : (m.drivers.any fun p => p.1 = d1.protocolCode) = true
      · rw [if_pos hany, hfind]
        exact hget
      · rw [if_neg hany]
        dsimp only
        rw [find?_append_some _ _ _ _ hfind]
        exact hget
  · unfold RegisterTransport
    split <;> rfl

/-- Claim C9 witness: registering the S7 driver into the empty manager makes
`GetDriver "s7"` return it; re-registering it afterwards is a no-op, and a
transport registration leaves the driver map alone. -/
theorem c9_witness :
    GetDriver (RegisterDriver ⟨[], []⟩ s7Driver) "s7" = .ok s7Driver ∧
    RegisterDriver s7OnlyManager s7Driver = s7OnlyManager ∧
    (RegisterTransport s7OnlyManager ⟨"tcp", "TCP"⟩).drivers =
      s7OnlyManager.drivers :=
  ⟨(c9_registration_idempotent_and_stable ⟨[], []⟩ s7Driver s7Driver
      ⟨"tcp", "TCP"⟩ "s7").2.1 (by decide),
   (c9_registration_idempotent_and_stable s7OnlyManager s7Driver s7Driver
      ⟨"tcp", "TCP"⟩ "s7").1 (by decide),
   (c9_registration_idempotent_and_stable s7OnlyManager s7Driver s7Driver
      ⟨"tcp", "TCP"⟩ "s7").2.2.2⟩

end Plc4x
